import Mathlib

/-!
Verification of the FloodLink flood-alert scripts.

This file is a shallow embedding, in Lean, of the logic of the three
scripts of the repository:

* `livefloodengine.py`  — live Open-Meteo evaluator,
* `floodlink_glofas_hotspots.py` — GloFAS hotspot evaluator,
* `news-feed.py` — RSS news scorer.

Real-valued quantities (scores, coordinates, weather inputs) are modelled
as rationals (`Rat`).  Python dictionaries keyed by rounded coordinates
are modelled either as association lists (snapshots handed to the differ)
or as functions `Key → Option Entry` (the mutable notification ledger).
Wall-clock timestamps, network I/O and the Twitter client are outside the
embedded logic; the main tweet loops are modelled as pure state-passing
functions over the list of detected changes, where the list of
notification calls made is accumulated explicitly.
-/

namespace FloodLink

/-- Discrete risk levels.  Mirrors the string levels used by both
evaluators; the order of constructors matches the list
`LEVELS = ["None", "Low", "Medium", "High", "Extreme"]`. -/
inductive Level where
  | None
  | Low
  | Medium
  | High
  | Extreme
deriving DecidableEq, Repr

/-- Definition `LEVELS` from both evaluator scripts. -/
def LEVELS : List Level :=
  [Level.None, Level.Low, Level.Medium, Level.High, Level.Extreme]

/-- Definition `TWEET_LEVELS` (Medium, High, Extreme) from both evaluator scripts. -/
def TWEET_LEVELS : List Level := [Level.Medium, Level.High, Level.Extreme]

/-- Flag `ALERT_ON_UPGRADES`, set to true in both evaluator scripts. -/
def ALERT_ON_UPGRADES : Bool := true

/-- Flag `ALERT_ON_DOWNGRADES`, set to true in both evaluator scripts. -/
def ALERT_ON_DOWNGRADES : Bool := true

/-- Python expression `LEVELS.index(lvl)`: ordinal position of a level in the total order. -/
def levelIndex (l : Level) : Nat := LEVELS.indexOf l

/-- The three transition kinds emitted by `compare_alerts`
(the strings `"New"`, `"Upgrade"`, `"Downgrade"` in the source). -/
inductive ChangeType where
  | New
  | Upgrade
  | Downgrade
deriving DecidableEq, Repr

/-- Floor of a rational, computed from the reduced fraction with
floor-division (`Int.fdiv`), so that it is executable. -/
def ratFloor (q : Rat) : Int := Int.fdiv q.num (q.den : Int)

/-- Round-half-to-even on a rational, the tie-breaking rule of Python's
built-in `round`, used both by explicit rounding calls and by the
fixed-point formatting of coordinates into ledger keys. -/
def roundHalfEven (q : Rat) : Int :=
  let f : Int := ratFloor q
  let r : Rat := q - (f : Rat)
  if r < 1/2 then f
  else if 1/2 < r then f + 1
  else if f % 2 = 0 then f else f + 1

/-- Python `round(q, d)` where `scale` is 10 to the d. -/
def roundTo (q : Rat) (scale : Rat) : Rat :=
  ((roundHalfEven (q * scale) : Int) : Rat) / scale

/-- Python `round(q, 4)`: coordinate rounding used for site identities. -/
def round4 (q : Rat) : Rat := roundTo q 10000

/-- Python `round(q, 3)`: rounding of the raw dynamic score. -/
def round3 (q : Rat) : Rat := roundTo q 1000

/-- A site identity: coordinates rounded to 4 decimal places.  The tuple
key `(round(lat,4), round(lon,4))` of `build_alert_dict` and the ledger's
string key (latitude and longitude formatted to 4 decimals, comma-joined)
carry the same information and are
both modelled by this pair. -/
abbrev Key := Rat × Rat

/-- A site record ("alert" dict) as produced by one evaluator run.  Only
the fields the core logic reads are modelled: the identity-forming
coordinates, the classified level, and the descriptive fields (`name` /
`headline_city`, raw score) that are carried through to ledger entries.
The remaining descriptive fields (country, river name, weather metrics,
…) are carried through unchanged by the code exactly like `name` and are
not repeated here; wall-clock timestamps are not modelled. -/
structure Alert where
  name : String
  latitude : Rat
  longitude : Rat
  raw_dynamic_score : Rat
  dynamic_level : Level
deriving DecidableEq, Repr

/-- The dict key `(round(a["latitude"], 4), round(a["longitude"], 4))`. -/
def alertKey (a : Alert) : Key := (round4 a.latitude, round4 a.longitude)

/-- Function `build_alert_dict(alerts)`: key alerts by rounded coordinates.  The
Python dict is modelled as an association list in construction order;
lookups below take the first match, which agrees with the dict whenever
the keys are distinct (the hypotheses of the theorems below). -/
def build_alert_dict (alerts : List Alert) : List (Key × Alert) :=
  alerts.map (fun a => (alertKey a, a))

/-- First-match lookup in an association list (`prev[key]` /
`key in prev` on the Python dict). -/
def dictLookup (d : List (Key × Alert)) (k : Key) : Option Alert :=
  match d with
  | [] => Option.none
  | (k', v) :: rest => if k' = k then some v else dictLookup rest k

/-- The body of the `for key, c in curr.items()` loop of `compare_alerts`
(identical in both evaluator scripts): the changes contributed by one
current site. -/
def changesFor (prev : List (Key × Alert)) (key : Key) (c : Alert) :
    List (ChangeType × Alert) :=
  let cur_lvl := c.dynamic_level
  match dictLookup prev key with
  | Option.none =>
    -- New site this run
    if cur_lvl ∈ TWEET_LEVELS then [(ChangeType.New, c)] else []
  | some p =>
    let prev_lvl := p.dynamic_level
    if prev_lvl = cur_lvl then []
    else
      let prev_i := levelIndex prev_lvl
      let cur_i := levelIndex cur_lvl
      -- Any upgrade into a tweet-worthy level
      if ALERT_ON_UPGRADES = true ∧ prev_i < cur_i ∧ cur_lvl ∈ TWEET_LEVELS then
        [(ChangeType.Upgrade, c)]
      -- Downgrades from tweet-worthy levels (optional)
      else if ALERT_ON_DOWNGRADES = true ∧ cur_i < prev_i ∧ prev_lvl ∈ TWEET_LEVELS then
        [(ChangeType.Downgrade, c)]
      else []

/-- Function `compare_alerts(prev, curr)`, identical in both evaluator scripts:
iterate the current snapshot in order, appending the change (if any)
contributed by each site. -/
def compare_alerts (prev curr : List (Key × Alert)) : List (ChangeType × Alert) :=
  curr.foldl (fun changes kc => changes ++ changesFor prev kc.1 kc.2) []

theorem levelIndex_None : levelIndex Level.None = 0 := by decide

theorem levelIndex_Low : levelIndex Level.Low = 1 := by decide

theorem levelIndex_Medium : levelIndex Level.Medium = 2 := by decide

theorem levelIndex_High : levelIndex Level.High = 3 := by decide

theorem levelIndex_Extreme : levelIndex Level.Extreme = 4 := by decide

theorem levelIndex_inj (l1 l2 : Level) (h : levelIndex l1 = levelIndex l2) :
    l1 = l2 := by
  cases l1 <;> cases l2 <;> revert h <;> decide

theorem compare_alerts_acc (prev : List (Key × Alert)) :
    ∀ (curr : List (Key × Alert)) (acc : List (ChangeType × Alert)),
      curr.foldl (fun changes kc => changes ++ changesFor prev kc.1 kc.2) acc
        = acc ++ compare_alerts prev curr := by
  intro curr
  induction curr with
  | nil => intro acc; simp [compare_alerts]
  | cons kc rest ih =>
    intro acc
    simp only [compare_alerts, List.foldl_cons, List.nil_append]
    rw [ih (acc ++ changesFor prev kc.1 kc.2), ih (changesFor prev kc.1 kc.2)]
    simp [List.append_assoc]

theorem compare_alerts_cons (prev : List (Key × Alert)) (kc : Key × Alert)
    (rest : List (Key × Alert)) :
    compare_alerts prev (kc :: rest)
      = changesFor prev kc.1 kc.2 ++ compare_alerts prev rest := by
  simp only [compare_alerts, List.foldl_cons, List.nil_append]
  exact compare_alerts_acc prev rest (changesFor prev kc.1 kc.2)

/-! ### Risk model of `livefloodengine.py` -/

/-- Constant `RAIN_UNIT_MM`, 100.0 mm. -/
def RAIN_UNIT_MM : Rat := 100

/-- Constant `SOIL_MIN_MULT`, 0.95. -/
def SOIL_MIN_MULT : Rat := 95/100

/-- Constant `SOIL_MAX_MULT`, 1.8. -/
def SOIL_MAX_MULT : Rat := 18/10

/-- Constant `HUM_MIN_MULT`, 1.0. -/
def HUM_MIN_MULT : Rat := 1

/-- Constant `HUM_MAX_MULT`, 1.05. -/
def HUM_MAX_MULT : Rat := 105/100

/-- Constant `RAIN_CUTOFF_MM`, 0.0. -/
def RAIN_CUTOFF_MM : Rat := 0

/-- Constant `RAW_LOW_MAX`, 5.0. -/
def RAW_LOW_MAX : Rat := 5

/-- Constant `RAW_MED_MAX`, 15.0. -/
def RAW_MED_MAX : Rat := 15

/-- Constant `RAW_HIGH_MAX`, 35.0. -/
def RAW_HIGH_MAX : Rat := 35

/-- Function `rainfall_multiplier(rain_mm)`. -/
def rainfall_multiplier (rain_mm : Rat) : Rat := max 0 (rain_mm / RAIN_UNIT_MM)

/-- Function `soil_multiplier(soil_frac)`. -/
def soil_multiplier (soil_frac : Rat) : Rat :=
  SOIL_MIN_MULT + max 0 (min 1 soil_frac) * (SOIL_MAX_MULT - SOIL_MIN_MULT)

/-- Function `humidity_multiplier(rh_percent)`. -/
def humidity_multiplier (rh_percent : Rat) : Rat :=
  HUM_MIN_MULT + max 0 (min 100 rh_percent) / 100 * (HUM_MAX_MULT - HUM_MIN_MULT)

/-- The banding `if/elif` chain inside `calculate_dynamic_risk_raw` that
maps the unrounded raw score to a level. -/
def classifyRaw (raw_score : Rat) : Level :=
  if raw_score = 0 then Level.None
  else if raw_score < RAW_LOW_MAX then Level.Low
  else if raw_score < RAW_MED_MAX then Level.Medium
  else if raw_score < RAW_HIGH_MAX then Level.High
  else Level.Extreme

/-- Function `calculate_dynamic_risk_raw(base_risk, rain_mm, rh_percent, soil_frac)`:
returns `(round(raw_score, 3), level, r_mult, s_mult, h_mult)`. -/
def calculate_dynamic_risk_raw (base_risk rain_mm rh_percent soil_frac : Rat) :
    Rat × Level × Rat × Rat × Rat :=
  if rain_mm < RAIN_CUTOFF_MM then
    (0, Level.None, 0, soil_multiplier 0, humidity_multiplier 0)
  else
    let r_mult := rainfall_multiplier rain_mm
    let s_mult := soil_multiplier soil_frac
    let h_mult := humidity_multiplier rh_percent
    let raw_score := max 0 base_risk * r_mult * s_mult * h_mult
    (round3 raw_score, classifyRaw raw_score, r_mult, s_mult, h_mult)

/-- Function `return_period_to_level(rp)` from the GloFAS script:
maps a GloFAS return period (years, possibly `None`) to a level. -/
def return_period_to_level (rp : Option Rat) : Level :=
  match rp with
  | Option.none => Level.Medium
  | some r =>
    if 20 ≤ r then Level.Extreme
    else if 5 ≤ r then Level.High
    else if 2 ≤ r then Level.Medium
    else Level.Low

/-! ### Notification ledger and the main tweet loops

The tweet log `tweeted_alerts` is a JSON object keyed by the
coordinates formatted to 4 decimals and comma-joined,
modelled as a function `Key → Option LedgerEntry`.  The optional JSON key
`"resolved": True` is modelled by the Boolean field `resolved`
(`true` = key present, `false` = key absent). -/

/-- A ledger entry as written by the main loops: the alert's latest level
and descriptive fields (the wall-clock `last_updated` timestamp is not
modelled; the remaining copied fields behave exactly like `name`). -/
structure LedgerEntry where
  name : String
  risk_level : Level
  latitude : Rat
  longitude : Rat
  raw_dynamic_score : Rat
  resolved : Bool
deriving DecidableEq, Repr

/-- The ledger entry dict built by `main` of the GloFAS script, with the
`resolved` marker present (`r = true`) or absent (`r = false`). -/
def glofasEntry (a : Alert) (r : Bool) : LedgerEntry :=
  { name := a.name
    risk_level := a.dynamic_level
    latitude := a.latitude
    longitude := a.longitude
    raw_dynamic_score := a.raw_dynamic_score
    resolved := r }

/-- The ledger entry dict built by `main` of `livefloodengine.py`; it
never contains a `resolved` key. -/
def liveEntry (a : Alert) : LedgerEntry := glofasEntry a false

/-- Notification-ledger state (`tweeted_alerts`). -/
abbrev Ledger := Key → Option LedgerEntry

/-- One iteration of the `for change_type, alert in changes:` loop of
`main` in `floodlink_glofas_hotspots.py`.  The state is the ledger
together with the list of `tweet_alert` calls made so far.  A `Downgrade`
whose key has no ledger entry is skipped (`continue`); otherwise the
alert is tweeted and the ledger entry upserted, with the `resolved`
marker added exactly when the current level is not tweet-worthy. -/
def glofasMainStep (st : Ledger × List (ChangeType × Alert))
    (ch : ChangeType × Alert) : Ledger × List (ChangeType × Alert) :=
  let key := alertKey ch.2
  let current_level := ch.2.dynamic_level
  if ch.1 = ChangeType.Downgrade ∧ st.1 key = Option.none then st
  else
    let entry :=
      if current_level ∈ TWEET_LEVELS then glofasEntry ch.2 false
      else glofasEntry ch.2 true
    (fun k => if k = key then some entry else st.1 k, st.2 ++ [ch])

/-- The whole tweet loop of `main` in `floodlink_glofas_hotspots.py`,
starting from the loaded ledger with no tweets sent yet. -/
def glofasMainRun (changes : List (ChangeType × Alert)) (ledger0 : Ledger) :
    Ledger × List (ChangeType × Alert) :=
  changes.foldl glofasMainStep (ledger0, [])

/-- One iteration of the `for change_type, alert in changes:` loop of
`main` in `livefloodengine.py`: every change is tweeted and upserted into
the ledger; there is no ledger gate and no `resolved` marker. -/
def liveMainStep (st : Ledger × List (ChangeType × Alert))
    (ch : ChangeType × Alert) : Ledger × List (ChangeType × Alert) :=
  let key := alertKey ch.2
  (fun k => if k = key then some (liveEntry ch.2) else st.1 k, st.2 ++ [ch])

/-- The whole tweet loop of `main` in `livefloodengine.py`. -/
def liveMainRun (changes : List (ChangeType × Alert)) (ledger0 : Ledger) :
    Ledger × List (ChangeType × Alert) :=
  changes.foldl liveMainStep (ledger0, [])

/-! ### Snapshot rotation (`rotate_comparison_snapshots`)

The relevant files are the base path and the numbered snapshots
`prefix_i.json`.  The file system is modelled as a function from the slot
index to the optional file contents, where index `0` is the base path and
index `i ≥ 1` is the numbered snapshot i.  Existence tests map to
`Option.isSome`;
`os.remove` followed by `os.replace(older, newer)` moves the contents of
the older slot into the newer slot and empties the older slot. -/

/-- File-system state restricted to the snapshot slots. -/
abbrev FileState (α : Type) := Nat → Option α

/-- One iteration of the shift loop: if the snapshot at index i exists,
remove the one at index i+1 (when present) and move index i onto it. -/
def shiftStep {α : Type} (s : FileState α) (i : Nat) : FileState α :=
  if (s i).isSome then
    fun j => if j = i + 1 then s i else if j = i then Option.none else s j
  else s

/-- Python `range(m, 0, -1)`, the list m, m-1, …, 1. -/
def downTo : Nat → List Nat
  | 0 => []
  | k + 1 => (k + 1) :: downTo k

/-- The whole shift loop `for i in range(max_history - 1, 0, -1)` applied
with upper bound `k`. -/
def shiftAll {α : Type} (s : FileState α) (k : Nat) : FileState α :=
  (downTo k).foldl shiftStep s

/-- The final step of `rotate_comparison_snapshots`: if the base file
exists, remove slot 1 (when present) and move the base file onto it. -/
def moveBase {α : Type} (t : FileState α) : FileState α :=
  if (t 0).isSome then
    fun j => if j = 1 then t 0 else if j = 0 then Option.none else t j
  else t

/-- Function `rotate_comparison_snapshots(base_path, max_history)`: shift the
numbered snapshots up by one, then move the base file into slot 1. -/
def rotate_comparison_snapshots {α : Type} (s : FileState α)
    (max_history : Nat) : FileState α :=
  moveBase (shiftAll s (max_history - 1))

/-! ### Loading persisted state

A persisted JSON file is modelled as `Option (Except String β)`:
`Option.none` is a missing file, `some (Except.error e)` a file that is
present but unparseable (on which `json.load` raises), and
`some (Except.ok v)` a file parsing to `v`.  The loaders call `json.load`
with no `try`/`except`, so a parse error propagates out of them. -/

/-- The parsed comparison-snapshot file: a JSON object whose key
"alerts" holds the list of site records (the
timestamp and count fields are not read by the comparison logic). -/
structure SnapshotFile where
  alerts : List Alert
deriving DecidableEq, Repr

/-- Function `load_json(path)`, identical in both evaluator scripts: if the file
exists, return `json.load(f)` — which raises on corrupt contents —
otherwise return the default object with an empty alerts list. -/
def load_json (file : Option (Except String SnapshotFile)) :
    Except String SnapshotFile :=
  match file with
  | some parsed => parsed
  | Option.none => Except.ok { alerts := [] }

/-- Function `load_tweeted_alerts(path)`: if the file exists, return
`json.load(f)` — which raises on corrupt contents — otherwise return the
empty dict. -/
def load_tweeted_alerts (file : Option (Except String (List (Key × LedgerEntry)))) :
    Except String (List (Key × LedgerEntry)) :=
  match file with
  | some parsed => parsed
  | Option.none => Except.ok []

/-! ### News relevance scoring (`news-feed.py`) -/

/-- The `score = int(score_text)` / range-check tail of
`get_news_relevance_score`, applied to the result of the integer parse:
a parse failure raises `ValueError`, caught by the function's `except`
branch (giving 0, the `Option.none` case here); an in-range score is
returned as is, anything else as 0. -/
def score_of_parsed (parsed : Option Int) : Int :=
  match parsed with
  | Option.none => 0
  | some score => if 0 ≤ score ∧ score ≤ 10 then score else 0

/-- Function `get_news_relevance_score(title, summary)`: the chat-completion call
either raises (`Except.error`, the `except` branch returns 0) or yields
the model's reply text, which is stripped (`.strip()`, modelled by
`String.trim`), parsed as an integer (Python's `int(...)`, modelled by
`String.toInt?`) and range-checked. -/
def get_news_relevance_score (reply : Except String String) : Int :=
  match reply with
  | Except.error _ => 0
  | Except.ok content => score_of_parsed content.trim.toInt?

/-! ### Helper lemmas about the differ -/

theorem build_alert_dict_cons (a : Alert) (l : List Alert) :
    build_alert_dict (a :: l) = (alertKey a, a) :: build_alert_dict l := rfl

theorem changesFor_cases (prev : List (Key × Alert)) (k : Key) (a : Alert) :
    changesFor prev k a = [] ∨ ∃ t, changesFor prev k a = [(t, a)] := by
  unfold changesFor
  cases hd : dictLookup prev k with
  | none =>
    dsimp only
    split_ifs
    · exact Or.inr ⟨_, rfl⟩
    · exact Or.inl rfl
  | some p =>
    dsimp only
    split_ifs
    · exact Or.inl rfl
    · exact Or.inr ⟨_, rfl⟩
    · exact Or.inr ⟨_, rfl⟩
    · exact Or.inl rfl

theorem changesFor_snd {prev : List (Key × Alert)} {k : Key} {a : Alert}
    {t : ChangeType} {x : Alert} (h : (t, x) ∈ changesFor prev k a) : x = a := by
  rcases changesFor_cases prev k a with hc | ⟨t', hc⟩ <;> rw [hc] at h
  · cases h
  · rw [List.mem_singleton, Prod.mk.injEq] at h
    exact h.2

theorem mem_key_eq {curr : List Alert} (hnd : (curr.map alertKey).Nodup)
    {a b : Alert} (ha : a ∈ curr) (hb : b ∈ curr) (hk : alertKey a = alertKey b) :
    a = b := by
  induction curr with
  | nil => cases ha
  | cons x rest ih =>
    simp only [List.map_cons, List.nodup_cons] at hnd
    rcases List.mem_cons.mp ha with rfl | ha' <;>
      rcases List.mem_cons.mp hb with rfl | hb'
    · rfl
    · exact absurd (by rw [hk]; exact List.mem_map_of_mem alertKey hb') hnd.1
    · exact absurd (by rw [← hk]; exact List.mem_map_of_mem alertKey ha') hnd.1
    · exact ih hnd.2 ha' hb'

theorem dictLookup_build_self {alerts : List Alert}
    (hnd : (alerts.map alertKey).Nodup) {a : Alert} (ha : a ∈ alerts) :
    dictLookup (build_alert_dict alerts) (alertKey a) = some a := by
  induction alerts with
  | nil => cases ha
  | cons x rest ih =>
    simp only [List.map_cons, List.nodup_cons] at hnd
    simp only [build_alert_dict, List.map_cons, dictLookup]
    rcases List.mem_cons.mp ha with rfl | ha'
    · rw [if_pos rfl]
    · rw [if_neg fun he => hnd.1 (by rw [he]; exact List.mem_map_of_mem alertKey ha')]
      exact ih hnd.2 ha'

theorem dictLookup_build_mem {alerts : List Alert} {k : Key} {p : Alert}
    (h : dictLookup (build_alert_dict alerts) k = some p) :
    p ∈ alerts ∧ alertKey p = k := by
  induction alerts with
  | nil => cases h
  | cons x rest ih =>
    simp only [build_alert_dict, List.map_cons, dictLookup] at h
    by_cases hk : alertKey x = k
    · rw [if_pos hk, Option.some.injEq] at h
      exact ⟨by rw [← h]; exact List.mem_cons_self x rest, by rw [← h]; exact hk⟩
    · rw [if_neg hk] at h
      have := ih h
      exact ⟨List.mem_cons_of_mem x this.1, this.2⟩

theorem dictLookup_build_none {alerts : List Alert} {k : Key}
    (h : ∀ a ∈ alerts, alertKey a ≠ k) :
    dictLookup (build_alert_dict alerts) k = Option.none := by
  induction alerts with
  | nil => rfl
  | cons x rest ih =>
    simp only [build_alert_dict, List.map_cons, dictLookup]
    rw [if_neg (h x (List.mem_cons_self x rest))]
    exact ih fun a ha => h a (List.mem_cons_of_mem x ha)

theorem changesFor_filter_ne {prev : List (Key × Alert)} {k : Key} {a : Alert}
    (kq : Key) (hne : alertKey a ≠ kq) :
    (changesFor prev k a).filter (fun tc => decide (alertKey tc.2 = kq)) = [] := by
  rcases changesFor_cases prev k a with hc | ⟨t, hc⟩ <;> rw [hc]
  · rfl
  · simp [List.filter, hne]

theorem filterKey_compare_nil (prev : List (Key × Alert)) (curr : List Alert)
    (kq : Key) (h : ∀ a ∈ curr, alertKey a ≠ kq) :
    (compare_alerts prev (build_alert_dict curr)).filter
      (fun tc => decide (alertKey tc.2 = kq)) = [] := by
  induction curr with
  | nil => rfl
  | cons a rest ih =>
    rw [build_alert_dict_cons, compare_alerts_cons, List.filter_append]
    rw [changesFor_filter_ne kq (h a (List.mem_cons_self a rest))]
    rw [List.nil_append]
    exact ih fun b hb => h b (List.mem_cons_of_mem a hb)

theorem filter_compare_eq_changesFor (prevD : List (Key × Alert))
    (currAlerts : List Alert) (c : Alert)
    (hndc : (currAlerts.map alertKey).Nodup) (hc : c ∈ currAlerts) :
    (compare_alerts prevD (build_alert_dict currAlerts)).filter
        (fun tc => decide (alertKey tc.2 = alertKey c))
      = (changesFor prevD (alertKey c) c).filter
          (fun tc => decide (alertKey tc.2 = alertKey c)) := by
  induction currAlerts with
  | nil => cases hc
  | cons x rest ih =>
    simp only [List.map_cons, List.nodup_cons] at hndc
    rw [build_alert_dict_cons, compare_alerts_cons, List.filter_append]
    rcases List.mem_cons.mp hc with rfl | hc'
    · rw [filterKey_compare_nil prevD rest (alertKey c)
        (fun b hb he => hndc.1 (by rw [← he]; exact List.mem_map_of_mem alertKey hb))]
      rw [List.append_nil]
    · rw [changesFor_filter_ne (alertKey c)
        (fun he => hndc.1 (by rw [he]; exact List.mem_map_of_mem alertKey hc'))]
      rw [List.nil_append]
      exact ih hndc.2 hc'

theorem changesFor_downgrade {prev : List (Key × Alert)} {k : Key} {c p : Alert}
    (hl : dictLookup prev k = some p)
    (hp : p.dynamic_level ∈ TWEET_LEVELS)
    (hlt : levelIndex c.dynamic_level < levelIndex p.dynamic_level) :
    changesFor prev k c = [(ChangeType.Downgrade, c)] := by
  have hne : p.dynamic_level ≠ c.dynamic_level := by
    intro he
    rw [he] at hlt
    omega
  simp only [changesFor, hl]
  rw [if_neg hne]
  split_ifs with h1 h2
  · exact absurd h1.2.1 (by omega)
  · rfl
  · exact absurd ⟨rfl, hlt, hp⟩ h2

theorem changesFor_new {prev : List (Key × Alert)} {k : Key} {c : Alert}
    (hl : dictLookup prev k = Option.none) :
    changesFor prev k c
      = if c.dynamic_level ∈ TWEET_LEVELS then [(ChangeType.New, c)] else [] := by
  simp only [changesFor, hl]

/-- A sample site at level `Medium` (used as concrete input below). -/
def siteMedium : Alert :=
  { name := "site", latitude := 1, longitude := 2,
    raw_dynamic_score := 10, dynamic_level := Level.Medium }

/-- The same site downgraded to `Low`. -/
def siteLow : Alert :=
  { name := "site", latitude := 1, longitude := 2,
    raw_dynamic_score := 2, dynamic_level := Level.Low }

/-- A sample fresh site at level `Medium`. -/
def freshMedium : Alert :=
  { name := "m", latitude := 0, longitude := 0,
    raw_dynamic_score := 10, dynamic_level := Level.Medium }

/-- A sample fresh site at level `Low`. -/
def freshLow : Alert :=
  { name := "l", latitude := 0, longitude := 0,
    raw_dynamic_score := 2, dynamic_level := Level.Low }

/-- Claim C2: if a site is present in both snapshots, its previous level
is in the notifiable set `TWEET_LEVELS` (Medium, High, Extreme), and
its current level is strictly lower in the order
`None < Low < Medium < High < Extreme` (including current levels `None`
or `Low` that are themselves not notifiable), then `compare_alerts`
emits exactly one `Downgrade` transition for that site (downgrade alerts
being enabled, `ALERT_ON_DOWNGRADES = True`). -/
theorem C2_diff_downgrade
    (prevAlerts currAlerts : List Alert) (p c : Alert)
    (hndp : (prevAlerts.map alertKey).Nodup)
    (hndc : (currAlerts.map alertKey).Nodup)
    (hp : p ∈ prevAlerts) (hc : c ∈ currAlerts)
    (hkey : alertKey p = alertKey c)
    (hprev : p.dynamic_level ∈ TWEET_LEVELS)
    (hlt : levelIndex c.dynamic_level < levelIndex p.dynamic_level) :
    (compare_alerts (build_alert_dict prevAlerts) (build_alert_dict currAlerts)).filter
        (fun tc => decide (alertKey tc.2 = alertKey c))
      = [(ChangeType.Downgrade, c)] := by
  rw [filter_compare_eq_changesFor _ _ _ hndc hc]
  have hl : dictLookup (build_alert_dict prevAlerts) (alertKey c) = some p := by
    rw [← hkey]
    exact dictLookup_build_self hndp hp
  rw [changesFor_downgrade hl hprev hlt]
  simp [List.filter]

/-- Claim C2 witness: a concrete site present in both snapshots at
`Medium` before and `Low` now yields exactly one `Downgrade`. -/
theorem C2_diff_downgrade_witness :
    (compare_alerts (build_alert_dict [siteMedium])
        (build_alert_dict [siteLow])).filter
        (fun tc => decide (alertKey tc.2 = alertKey siteLow))
      = [(ChangeType.Downgrade, siteLow)] :=
  C2_diff_downgrade [siteMedium] [siteLow] siteMedium siteLow
    (by simp) (by simp) (by decide) (by decide)
    rfl (by decide) (by decide)

/-- Claim C3: a site whose identity appears only in the current snapshot
yields exactly one `New` transition when its current level is notifiable
(`Medium`, `High` or `Extreme`), and no transition at all when its level
is `None` or `Low`. -/
theorem C3_diff_new
    (prevAlerts currAlerts : List Alert) (c : Alert)
    (hndc : (currAlerts.map alertKey).Nodup)
    (habsent : ∀ q ∈ prevAlerts, alertKey q ≠ alertKey c)
    (hc : c ∈ currAlerts) :
    (c.dynamic_level ∈ TWEET_LEVELS →
      (compare_alerts (build_alert_dict prevAlerts) (build_alert_dict currAlerts)).filter
          (fun tc => decide (alertKey tc.2 = alertKey c))
        = [(ChangeType.New, c)])
    ∧ (c.dynamic_level ∉ TWEET_LEVELS →
      (compare_alerts (build_alert_dict prevAlerts) (build_alert_dict currAlerts)).filter
          (fun tc => decide (alertKey tc.2 = alertKey c))
        = []) := by
  rw [filter_compare_eq_changesFor _ _ _ hndc hc]
  rw [changesFor_new (dictLookup_build_none habsent)]
  constructor
  · intro hmem
    rw [if_pos hmem]
    simp [List.filter]
  · intro hmem
    rw [if_neg hmem]
    rfl

/-- Claim C3 witness: a site only in the current snapshot at `Medium`
yields one `New`; one at `Low` yields nothing. -/
theorem C3_diff_new_witness :
    (compare_alerts (build_alert_dict []) (build_alert_dict [freshMedium])).filter
        (fun tc => decide (alertKey tc.2 = alertKey freshMedium))
      = [(ChangeType.New, freshMedium)]
    ∧ (compare_alerts (build_alert_dict []) (build_alert_dict [freshLow])).filter
        (fun tc => decide (alertKey tc.2 = alertKey freshLow))
      = [] :=
  ⟨(C3_diff_new [] [freshMedium] freshMedium (by decide)
      (by intro q hq; cases hq) (by decide)).1 (by decide),
   (C3_diff_new [] [freshLow] freshLow (by decide)
      (by intro q hq; cases hq) (by decide)).2 (by decide)⟩

/-! ### Shape of the differ's output, and the ledger invariant -/

theorem changesFor_kind {prev : List (Key × Alert)} {k : Key} {c : Alert}
    {t : ChangeType} (h : (t, c) ∈ changesFor prev k c) :
    ((t = ChangeType.New ∨ t = ChangeType.Upgrade) → c.dynamic_level ∈ TWEET_LEVELS)
    ∧ (t = ChangeType.Downgrade →
        ∃ p, dictLookup prev k = some p ∧ p.dynamic_level ∈ TWEET_LEVELS
          ∧ levelIndex c.dynamic_level < levelIndex p.dynamic_level) := by
  unfold changesFor at h
  cases hd : dictLookup prev k with
  | none =>
    rw [hd] at h
    dsimp only at h
    split_ifs at h with hmem
    · rw [List.mem_singleton, Prod.mk.injEq] at h
      obtain ⟨ht, -⟩ := h
      subst ht
      exact ⟨fun _ => hmem, fun htd => ChangeType.noConfusion htd⟩
    · cases h
  | some p =>
    rw [hd] at h
    dsimp only at h
    split_ifs at h with h1 h2 h3
    · cases h
    · rw [List.mem_singleton, Prod.mk.injEq] at h
      obtain ⟨ht, -⟩ := h
      subst ht
      exact ⟨fun _ => h2.2.2, fun htd => ChangeType.noConfusion htd⟩
    · rw [List.mem_singleton, Prod.mk.injEq] at h
      obtain ⟨ht, -⟩ := h
      subst ht
      refine ⟨fun htu => ?_, fun _ => ⟨p, rfl, h3.2.2, h3.2.1⟩⟩
      rcases htu with ht' | ht' <;> exact ChangeType.noConfusion ht'
    · cases h

theorem mem_compare_shape {prevAlerts currAlerts : List Alert}
    {t : ChangeType} {c : Alert}
    (h : (t, c) ∈ compare_alerts (build_alert_dict prevAlerts)
          (build_alert_dict currAlerts)) :
    c ∈ currAlerts
    ∧ ((t = ChangeType.New ∨ t = ChangeType.Upgrade) → c.dynamic_level ∈ TWEET_LEVELS)
    ∧ (t = ChangeType.Downgrade →
        ∃ p, p ∈ prevAlerts ∧ alertKey p = alertKey c
          ∧ p.dynamic_level ∈ TWEET_LEVELS) := by
  induction currAlerts with
  | nil => cases h
  | cons x rest ih =>
    rw [build_alert_dict_cons, compare_alerts_cons] at h
    rcases List.mem_append.mp h with h1 | h2
    · have hcx : c = x := changesFor_snd h1
      subst hcx
      have hk := changesFor_kind h1
      refine ⟨List.mem_cons_self c rest, hk.1, fun htd => ?_⟩
      rcases hk.2 htd with ⟨p, hlk, hplev, _⟩
      have hpm := dictLookup_build_mem hlk
      exact ⟨p, hpm.1, hpm.2, hplev⟩
    · have := ih h2
      exact ⟨List.mem_cons_of_mem x this.1, this.2⟩

theorem foldl_inv {σ α : Type} (Inv : σ → Prop) (step : σ → α → σ)
    (l : List α) (s : σ) (h0 : Inv s)
    (hstep : ∀ x ∈ l, ∀ t, Inv t → Inv (step t x)) :
    Inv (l.foldl step s) := by
  induction l generalizing s with
  | nil => exact h0
  | cons x rest ih =>
    exact ih (step s x) (hstep x (List.mem_cons_self x rest) s h0)
      (fun y hy => hstep y (List.mem_cons_of_mem x hy))

theorem glofasMainStep_inv {P : Key → Prop}
    (st : Ledger × List (ChangeType × Alert)) (ch : ChangeType × Alert)
    (hmain : ∀ k, st.1 k ≠ Option.none → P k)
    (hch : ch.1 = ChangeType.Downgrade ∨ P (alertKey ch.2)) :
    ∀ k, (glofasMainStep st ch).1 k ≠ Option.none → P k := by
  intro k hk
  by_cases hskip : ch.1 = ChangeType.Downgrade ∧ st.1 (alertKey ch.2) = Option.none
  · rw [glofasMainStep, if_pos hskip] at hk
    exact hmain k hk
  · rw [glofasMainStep, if_neg hskip] at hk
    dsimp only at hk
    by_cases hkey : k = alertKey ch.2
    · subst hkey
      rcases hch with hdg | hp
      · exact hmain _ fun hnone => hskip ⟨hdg, hnone⟩
      · exact hp
    · rw [if_neg hkey] at hk
      exact hmain k hk

theorem liveMainStep_inv {P : Key → Prop}
    (st : Ledger × List (ChangeType × Alert)) (ch : ChangeType × Alert)
    (hmain : ∀ k, st.1 k ≠ Option.none → P k)
    (hp : P (alertKey ch.2)) :
    ∀ k, (liveMainStep st ch).1 k ≠ Option.none → P k := by
  intro k hk
  dsimp only [liveMainStep] at hk
  by_cases hkey : k = alertKey ch.2
  · subst hkey
    exact hp
  · rw [if_neg hkey] at hk
    exact hmain k hk

theorem glofasRun_inv (changes : List (ChangeType × Alert)) (ledger0 : Ledger)
    (P : Key → Prop)
    (h0 : ∀ k, ledger0 k ≠ Option.none → P k)
    (hch : ∀ ch ∈ changes, ch.1 = ChangeType.Downgrade ∨ P (alertKey ch.2)) :
    ∀ k, (glofasMainRun changes ledger0).1 k ≠ Option.none → P k := by
  refine foldl_inv (fun st => ∀ k, st.1 k ≠ Option.none → P k)
    glofasMainStep changes (ledger0, []) h0 ?_
  intro ch hm st hst
  exact glofasMainStep_inv st ch hst (hch ch hm)

theorem liveRun_inv (changes : List (ChangeType × Alert)) (ledger0 : Ledger)
    (P : Key → Prop)
    (h0 : ∀ k, ledger0 k ≠ Option.none → P k)
    (hch : ∀ ch ∈ changes, P (alertKey ch.2)) :
    ∀ k, (liveMainRun changes ledger0).1 k ≠ Option.none → P k := by
  refine foldl_inv (fun st => ∀ k, st.1 k ≠ Option.none → P k)
    liveMainStep changes (ledger0, []) h0 ?_
  intro ch hm st hst
  exact liveMainStep_inv st ch hst (hch ch hm)

/-- Claim C5: after a run, every ledger entry belongs to a site that at
some point held a notifiable level.  Precisely: any key with an entry in
the final ledger either already had one in the loaded ledger, or belongs
to a site that holds a notifiable level in the current snapshot — or, in
the live evaluator (whose ungated loop also records downgrades), held a
notifiable level in the previous snapshot.  In particular no entry is
ever created for a site that never crossed into a notifiable level. -/
theorem C5_ledger_notifiable
    (prevAlerts currAlerts : List Alert) (ledger0 : Ledger) (key : Key) :
    ((glofasMainRun (compare_alerts (build_alert_dict prevAlerts)
          (build_alert_dict currAlerts)) ledger0).1 key ≠ Option.none →
       ledger0 key ≠ Option.none
       ∨ ∃ a, a ∈ currAlerts ∧ alertKey a = key ∧ a.dynamic_level ∈ TWEET_LEVELS)
    ∧ ((liveMainRun (compare_alerts (build_alert_dict prevAlerts)
          (build_alert_dict currAlerts)) ledger0).1 key ≠ Option.none →
       ledger0 key ≠ Option.none
       ∨ (∃ a, a ∈ currAlerts ∧ alertKey a = key ∧ a.dynamic_level ∈ TWEET_LEVELS)
       ∨ (∃ p, p ∈ prevAlerts ∧ alertKey p = key ∧ p.dynamic_level ∈ TWEET_LEVELS)) := by
  constructor
  · intro hk
    refine glofasRun_inv _ ledger0
      (fun k => ledger0 k ≠ Option.none
        ∨ ∃ a, a ∈ currAlerts ∧ alertKey a = k ∧ a.dynamic_level ∈ TWEET_LEVELS)
      (fun k hk0 => Or.inl hk0) ?_ key hk
    intro ch hchm
    obtain ⟨t, c⟩ := ch
    cases t with
    | Downgrade => exact Or.inl rfl
    | New =>
      have hs := mem_compare_shape hchm
      exact Or.inr (Or.inr ⟨c, hs.1, rfl, hs.2.1 (Or.inl rfl)⟩)
    | Upgrade =>
      have hs := mem_compare_shape hchm
      exact Or.inr (Or.inr ⟨c, hs.1, rfl, hs.2.1 (Or.inr rfl)⟩)
  · intro hk
    refine liveRun_inv _ ledger0
      (fun k => ledger0 k ≠ Option.none
        ∨ (∃ a, a ∈ currAlerts ∧ alertKey a = k ∧ a.dynamic_level ∈ TWEET_LEVELS)
        ∨ (∃ p, p ∈ prevAlerts ∧ alertKey p = k ∧ p.dynamic_level ∈ TWEET_LEVELS))
      (fun k hk0 => Or.inl hk0) ?_ key hk
    intro ch hchm
    obtain ⟨t, c⟩ := ch
    have hs := mem_compare_shape hchm
    cases t with
    | Downgrade =>
      rcases hs.2.2 rfl with ⟨p, hpm, hpk, hpl⟩
      exact Or.inr (Or.inr ⟨p, hpm, hpk, hpl⟩)
    | New => exact Or.inr (Or.inl ⟨c, hs.1, rfl, hs.2.1 (Or.inl rfl)⟩)
    | Upgrade => exact Or.inr (Or.inl ⟨c, hs.1, rfl, hs.2.1 (Or.inr rfl)⟩)

/-- Claim C5 witness: with an empty loaded ledger, an empty previous
snapshot and one current site at `Medium`, the run creates an entry and
the invariant exhibits the notifiable site. -/
theorem C5_ledger_notifiable_witness :
    (fun _ : Key => (Option.none : Option LedgerEntry)) (alertKey freshMedium)
        ≠ Option.none
    ∨ ∃ a, a ∈ [freshMedium] ∧ alertKey a = alertKey freshMedium
        ∧ a.dynamic_level ∈ TWEET_LEVELS :=
  (C5_ledger_notifiable [] [freshMedium] (fun _ => Option.none)
      (alertKey freshMedium)).1
    (by simp [glofasMainRun, glofasMainStep, compare_alerts, changesFor,
          dictLookup, build_alert_dict, freshMedium, TWEET_LEVELS])

/-! ### Claims about the two main tweet loops -/

/-- Claim C1 counterexample: the claim asserts that in every run a
`Downgrade` whose site has no ledger entry is suppressed entirely, but in
`livefloodengine.py`'s main loop there is no ledger gate: starting from
an empty ledger, a site that drops from `Medium` to `Low` produces a
`Downgrade` which is tweeted (the notification list is nonempty) and a
ledger entry is created for the site. -/
theorem C1_counterexample :
    compare_alerts (build_alert_dict [siteMedium]) (build_alert_dict [siteLow])
      = [(ChangeType.Downgrade, siteLow)]
    ∧ (liveMainRun [(ChangeType.Downgrade, siteLow)] (fun _ => Option.none)).2
      = [(ChangeType.Downgrade, siteLow)]
    ∧ (liveMainRun [(ChangeType.Downgrade, siteLow)] (fun _ => Option.none)).1
        (alertKey siteLow) = some (liveEntry siteLow) := by
  refine ⟨?_, ?_, ?_⟩
  · simp [compare_alerts, changesFor, dictLookup, build_alert_dict, alertKey,
      siteMedium, siteLow, TWEET_LEVELS, ALERT_ON_UPGRADES, ALERT_ON_DOWNGRADES,
      levelIndex_Low, levelIndex_Medium]
  · simp [liveMainRun, liveMainStep]
  · simp [liveMainRun, liveMainStep]

/-- Claim C1 (amended): the ledger gate exists only in the GloFAS
evaluator.  There, a `Downgrade` whose key has no ledger entry at the
time it is processed is skipped entirely — no tweet, no ledger change —
and `New`/`Upgrade` transitions are never suppressed by the ledger; in
particular a run whose changes are all downgrades leaves an empty ledger
empty and tweets nothing.  The live evaluator's loop, by contrast,
notifies every transition it is handed, ledger or not. -/
theorem C1_amended :
    (∀ (ledger : Ledger) (tweets : List (ChangeType × Alert))
        (ch : ChangeType × Alert),
      ch.1 = ChangeType.Downgrade → ledger (alertKey ch.2) = Option.none →
      glofasMainStep (ledger, tweets) ch = (ledger, tweets))
    ∧ (∀ (ledger : Ledger) (tweets : List (ChangeType × Alert))
        (ch : ChangeType × Alert),
      ch.1 ≠ ChangeType.Downgrade →
      (glofasMainStep (ledger, tweets) ch).2 = tweets ++ [ch])
    ∧ (∀ changes : List (ChangeType × Alert),
      (∀ ch ∈ changes, ch.1 = ChangeType.Downgrade) →
      glofasMainRun changes (fun _ => Option.none)
        = ((fun _ => Option.none), []))
    ∧ (∀ (st : Ledger × List (ChangeType × Alert)) (ch : ChangeType × Alert),
      (liveMainStep st ch).2 = st.2 ++ [ch]) := by
  refine ⟨?_, ?_, ?_, ?_⟩
  · intro ledger tweets ch h1 h2
    rw [glofasMainStep, if_pos ⟨h1, h2⟩]
  · intro ledger tweets ch hnd
    rw [glofasMainStep, if_neg (fun hand => hnd hand.1)]
  · intro changes hall
    have gen : ∀ (l : List (ChangeType × Alert)), (∀ ch ∈ l, ch.1 = ChangeType.Downgrade) →
        l.foldl glofasMainStep ((fun _ => Option.none), [])
          = ((fun _ => Option.none), []) := by
      intro l
      induction l with
      | nil => intro _; rfl
      | cons ch rest ih =>
        intro hl
        rw [List.foldl_cons, glofasMainStep,
          if_pos ⟨hl ch (List.mem_cons_self ch rest), rfl⟩]
        exact ih fun x hx => hl x (List.mem_cons_of_mem ch hx)
    exact gen changes hall
  · intro st ch
    rfl

/-- Claim C1 witness for the amended statement: a `Downgrade` hitting an
empty ledger in the GloFAS loop changes nothing. -/
theorem C1_amended_witness :
    glofasMainStep ((fun _ => Option.none), []) (ChangeType.Downgrade, siteLow)
      = ((fun _ => Option.none), []) :=
  C1_amended.1 (fun _ => Option.none) [] (ChangeType.Downgrade, siteLow) rfl rfl

/-- Claim C6 counterexample: the claim asserts that whenever a recorded
level is outside the notifiable set the ledger entry carries a resolved
marker, but `livefloodengine.py`'s loop records a `Downgrade` to `Low`
(not notifiable) with no `resolved` key at all. -/
theorem C6_counterexample :
    (liveMainRun [(ChangeType.Downgrade, siteLow)]
        (fun _ => some (glofasEntry siteMedium false))).1 (alertKey siteLow)
      = some (liveEntry siteLow)
    ∧ siteLow.dynamic_level ∉ TWEET_LEVELS
    ∧ (liveEntry siteLow).resolved = false := by
  refine ⟨?_, ?_, rfl⟩
  · simp [liveMainRun, liveMainStep]
  · decide

/-- Claim C6 (amended): in the GloFAS evaluator, every transition that
is recorded upserts the ledger entry with the site's latest level and
descriptive fields, and the entry carries the `resolved` marker exactly
when the recorded level is outside the notifiable set — the entry being
retained, not deleted.  In the live evaluator the entry is likewise
upserted with the latest level and fields, but never carries a
`resolved` marker. -/
theorem C6_amended :
    (∀ (ledger : Ledger) (tweets : List (ChangeType × Alert))
        (ch : ChangeType × Alert),
      ¬(ch.1 = ChangeType.Downgrade ∧ ledger (alertKey ch.2) = Option.none) →
      (glofasMainStep (ledger, tweets) ch).1 (alertKey ch.2)
        = some (glofasEntry ch.2 (decide (ch.2.dynamic_level ∉ TWEET_LEVELS))))
    ∧ (∀ (st : Ledger × List (ChangeType × Alert)) (ch : ChangeType × Alert),
      (liveMainStep st ch).1 (alertKey ch.2) = some (liveEntry ch.2))
    ∧ (∀ a : Alert, (liveEntry a).resolved = false) := by
  refine ⟨?_, ?_, fun a => rfl⟩
  · intro ledger tweets ch hng
    rw [glofasMainStep, if_neg hng]
    dsimp only
    rw [if_pos rfl]
    by_cases hmem : ch.2.dynamic_level ∈ TWEET_LEVELS
    · rw [if_pos hmem, decide_eq_false (fun hn => hn hmem)]
    · rw [if_neg hmem, decide_eq_true hmem]
  · intro st ch
    dsimp only [liveMainStep]
    rw [if_pos rfl]

/-- Claim C6 witness for the amended statement: a `New` at `Medium`
recorded by the GloFAS loop produces the entry with the latest level and
no resolved marker. -/
theorem C6_amended_witness :
    (glofasMainStep ((fun _ => Option.none), [])
        (ChangeType.New, freshMedium)).1 (alertKey freshMedium)
      = some (glofasEntry freshMedium
          (decide (freshMedium.dynamic_level ∉ TWEET_LEVELS))) :=
  C6_amended.1 (fun _ => Option.none) [] (ChangeType.New, freshMedium)
    (by simp)

/-! ### Claims about the classifier and the risk model -/

theorem classifyRaw_zero : classifyRaw 0 = Level.None := by
  unfold classifyRaw
  rw [if_pos rfl]

theorem classifyRaw_total (s : Rat) : classifyRaw s ∈ LEVELS := by
  unfold classifyRaw
  split_ifs <;> simp [LEVELS]

theorem classifyRaw_mono {s1 s2 : Rat} (h0 : 0 ≤ s1) (h : s1 ≤ s2) :
    levelIndex (classifyRaw s1) ≤ levelIndex (classifyRaw s2) := by
  rcases eq_or_lt_of_le h0 with heq | hpos
  · rw [← heq, classifyRaw_zero, levelIndex_None]
    exact Nat.zero_le _
  · have hpos2 : 0 < s2 := lt_of_lt_of_le hpos h
    unfold classifyRaw RAW_LOW_MAX RAW_MED_MAX RAW_HIGH_MAX
    rw [if_neg (ne_of_gt hpos), if_neg (ne_of_gt hpos2)]
    split_ifs <;>
      simp only [levelIndex_Low, levelIndex_Medium, levelIndex_High,
        levelIndex_Extreme] <;>
      first | omega | (exfalso; linarith)

theorem return_period_to_level_total (o : Option Rat) :
    return_period_to_level o ∈ LEVELS := by
  cases o with
  | none => decide
  | some r =>
    unfold return_period_to_level
    dsimp only
    split_ifs <;> decide

theorem return_period_to_level_mono {r1 r2 : Rat} (h : r1 ≤ r2) :
    levelIndex (return_period_to_level (some r1))
      ≤ levelIndex (return_period_to_level (some r2)) := by
  unfold return_period_to_level
  dsimp only
  split_ifs <;>
    simp only [levelIndex_Low, levelIndex_Medium, levelIndex_High,
      levelIndex_Extreme] <;>
    first | omega | (exfalso; linarith)

/-- Claim C4 counterexample: the banding chain of
`calculate_dynamic_risk_raw` is not monotonic over the whole real line:
a negative score (which only the standalone classifier, never the
engine, can produce) lands in `Low`, strictly above `classify 0 = None`,
even though `-1 ≤ 0`. -/
theorem C4_counterexample :
    classifyRaw (-1) = Level.Low
    ∧ classifyRaw 0 = Level.None
    ∧ ((-1 : Rat) ≤ 0)
    ∧ ¬ levelIndex (classifyRaw (-1)) ≤ levelIndex (classifyRaw 0) := by
  have h1 : classifyRaw (-1) = Level.Low := by
    unfold classifyRaw RAW_LOW_MAX
    rw [if_neg (by norm_num), if_pos (by norm_num)]
  have h2 := classifyRaw_zero
  refine ⟨h1, h2, by norm_num, ?_⟩
  rw [h1, h2, levelIndex_Low, levelIndex_None]
  omega

/-- Claim C4 (amended): both classifiers are total — every score is
assigned one of the five defined levels, without raising — and they are
monotonic non-decreasing on their reachable inputs: the banding of
`calculate_dynamic_risk_raw` is monotonic for all scores `0 ≤ s1 ≤ s2`
(and the raw score the engine feeds it is always non-negative), while
`return_period_to_level` is monotonic over the whole real line. -/
theorem C4_classifier_amended :
    (∀ s : Rat, classifyRaw s ∈ LEVELS)
    ∧ (∀ s1 s2 : Rat, 0 ≤ s1 → s1 ≤ s2 →
        levelIndex (classifyRaw s1) ≤ levelIndex (classifyRaw s2))
    ∧ (∀ base_risk rain_mm rh_percent soil_frac : Rat,
        0 ≤ max 0 base_risk * rainfall_multiplier rain_mm
          * soil_multiplier soil_frac * humidity_multiplier rh_percent)
    ∧ (∀ o : Option Rat, return_period_to_level o ∈ LEVELS)
    ∧ (∀ r1 r2 : Rat, r1 ≤ r2 →
        levelIndex (return_period_to_level (some r1))
          ≤ levelIndex (return_period_to_level (some r2))) := by
  refine ⟨classifyRaw_total, fun s1 s2 h0 h => classifyRaw_mono h0 h, ?_,
    return_period_to_level_total, fun r1 r2 h => return_period_to_level_mono h⟩
  intro base_risk rain_mm rh_percent soil_frac
  have hb : 0 ≤ max 0 base_risk := le_max_left 0 base_risk
  have hr : 0 ≤ rainfall_multiplier rain_mm := le_max_left _ _
  have hs : 0 ≤ soil_multiplier soil_frac := by
    unfold soil_multiplier SOIL_MIN_MULT SOIL_MAX_MULT
    have h1 : 0 ≤ max 0 (min 1 soil_frac) := le_max_left _ _
    nlinarith
  have hh : 0 ≤ humidity_multiplier rh_percent := by
    unfold humidity_multiplier HUM_MIN_MULT HUM_MAX_MULT
    have h1 : 0 ≤ max 0 (min 100 rh_percent) := le_max_left _ _
    nlinarith
  positivity

/-- Claim C4 witness for the amended statement: concrete monotone
instances of both classifiers. -/
theorem C4_classifier_amended_witness :
    levelIndex (classifyRaw 1) ≤ levelIndex (classifyRaw 7)
    ∧ levelIndex (return_period_to_level (some 3))
        ≤ levelIndex (return_period_to_level (some 21)) :=
  ⟨C4_classifier_amended.2.1 1 7 (by norm_num) (by norm_num),
   C4_classifier_amended.2.2.2.2 3 21 (by norm_num)⟩

theorem roundHalfEven_zero : roundHalfEven 0 = 0 := by
  unfold roundHalfEven ratFloor
  norm_num

theorem round3_zero : round3 0 = 0 := by
  unfold round3 roundTo
  rw [show (0 : Rat) * 1000 = 0 by ring, roundHalfEven_zero]
  norm_num

/-- Claim C9: for every base risk, relative humidity and soil moisture,
rainfall equal to `0.0` mm makes the risk model return a raw score of
`0.0` and level `None`: the zero rain multiplier annihilates the product
regardless of all other inputs. -/
theorem C9_zero_rainfall (base_risk rh_percent soil_frac : Rat) :
    calculate_dynamic_risk_raw base_risk 0 rh_percent soil_frac
      = (0, Level.None, 0, soil_multiplier soil_frac,
          humidity_multiplier rh_percent) := by
  unfold calculate_dynamic_risk_raw
  rw [if_neg (by norm_num [RAIN_CUTOFF_MM] : ¬((0 : Rat) < RAIN_CUTOFF_MM))]
  dsimp only
  have hr : rainfall_multiplier 0 = 0 := by
    unfold rainfall_multiplier RAIN_UNIT_MM
    norm_num
  rw [hr]
  rw [show max 0 base_risk * 0 * soil_multiplier soil_frac
        * humidity_multiplier rh_percent = 0 by ring]
  rw [round3_zero, classifyRaw_zero]

/-! ### Snapshot rotation: pointwise behaviour -/

theorem shiftStep_at_other {α : Type} (s : FileState α) (i j : Nat)
    (h1 : j ≠ i + 1) (h2 : j ≠ i) : shiftStep s i j = s j := by
  by_cases hs : (s i).isSome = true <;>
    simp [shiftStep, hs, h1, h2]

theorem shiftStep_at_self {α : Type} (s : FileState α) (i : Nat) :
    shiftStep s i i = Option.none := by
  by_cases hs : (s i).isSome = true
  · simp [shiftStep, hs, (by omega : i ≠ i + 1)]
  · simp only [shiftStep, hs, if_false, Bool.false_eq_true]
    exact Option.not_isSome_iff_eq_none.mp hs

theorem shiftStep_at_succ {α : Type} (s : FileState α) (i : Nat) :
    shiftStep s i (i + 1) = if (s i).isSome then s i else s (i + 1) := by
  by_cases hs : (s i).isSome = true <;> simp [shiftStep, hs]

theorem shiftAll_succ {α : Type} (s : FileState α) (k : Nat) :
    shiftAll s (k + 1) = shiftAll (shiftStep s (k + 1)) k := rfl

theorem shiftAll_char {α : Type} :
    ∀ (k : Nat) (s : FileState α), 1 ≤ k →
      shiftAll s k 0 = s 0
      ∧ shiftAll s k 1 = Option.none
      ∧ (∀ j, 2 ≤ j → j ≤ k → shiftAll s k j = s (j - 1))
      ∧ shiftAll s k (k + 1) = (if (s k).isSome then s k else s (k + 1))
      ∧ (∀ j, k + 2 ≤ j → shiftAll s k j = s j) := by
  intro k
  induction k with
  | zero => intro s h; omega
  | succ k ih =>
    intro s _
    cases Nat.eq_zero_or_pos k with
    | inl hk0 =>
      subst hk0
      refine ⟨shiftStep_at_other s 1 0 (by omega) (by omega),
        shiftStep_at_self s 1, ?_, shiftStep_at_succ s 1, ?_⟩
      · intro j hj2 hj1
        omega
      · intro j hj
        exact shiftStep_at_other s 1 j (by omega) (by omega)
    | inr hk1 =>
      rw [shiftAll_succ]
      obtain ⟨ih0, ih1, ihmid, ihtop, ihhigh⟩ := ih (shiftStep s (k + 1)) hk1
      have f1 : ∀ j, j ≠ k + 1 → j ≠ k + 2 → shiftStep s (k + 1) j = s j :=
        fun j hj1 hj2 => shiftStep_at_other s (k + 1) j hj2 hj1
      have f2 : shiftStep s (k + 1) (k + 1) = Option.none :=
        shiftStep_at_self s (k + 1)
      have f3 : shiftStep s (k + 1) (k + 2)
          = if (s (k + 1)).isSome then s (k + 1) else s (k + 2) :=
        shiftStep_at_succ s (k + 1)
      refine ⟨?_, ih1, ?_, ?_, ?_⟩
      · rw [ih0]
        exact f1 0 (by omega) (by omega)
      · intro j hj2 hjk
        rcases Nat.lt_or_ge j (k + 1) with hjlt | hjge
        · rw [ihmid j hj2 (by omega)]
          exact f1 (j - 1) (by omega) (by omega)
        · have hj : j = k + 1 := by omega
          subst hj
          rw [ihtop, f1 k (by omega) (by omega), f2]
          by_cases hks : (s k).isSome = true
          · rw [if_pos hks]
            simp
          · rw [if_neg hks]
            exact (Option.not_isSome_iff_eq_none.mp hks).symm
      · rw [ihhigh (k + 2) (by omega), f3]
      · intro j hj
        rw [ihhigh j (by omega)]
        exact f1 j (by omega) (by omega)

theorem moveBase_at_zero {α : Type} (t : FileState α) :
    moveBase t 0 = Option.none := by
  by_cases hb : (t 0).isSome = true
  · simp [moveBase, hb]
  · simp only [moveBase, hb, if_false, Bool.false_eq_true]
    exact Option.not_isSome_iff_eq_none.mp hb

theorem moveBase_at_one {α : Type} (t : FileState α)
    (h1 : t 1 = Option.none) : moveBase t 1 = t 0 := by
  by_cases hb : (t 0).isSome = true
  · simp [moveBase, hb]
  · simp only [moveBase, hb, if_false, Bool.false_eq_true]
    rw [h1]
    exact (Option.not_isSome_iff_eq_none.mp hb).symm

theorem moveBase_at_ge_two {α : Type} (t : FileState α) (j : Nat)
    (hj : 2 ≤ j) : moveBase t j = t j := by
  have hj1 : j ≠ 1 := by omega
  have hj0 : j ≠ 0 := by omega
  by_cases hb : (t 0).isSome = true
  · simp only [moveBase, hb, if_true]
    rw [if_neg hj1, if_neg hj0]
  · simp [moveBase, hb]

/-- The file-system state used as concrete input for the rotation
claim: the base file and slot 5 exist, slots 1–4 do not. -/
def snapState : FileState Nat :=
  fun j => if j = 0 then some 100 else if j = 5 then some 55 else Option.none

/-- Claim C7 counterexample: with `max_history = 5`, a base file present,
slot 5 occupied and slot 4 missing, rotation leaves the old slot-5 file
exactly where it was — the file previously at index `N` is *not*
discarded (the removal of slot `i+1` happens only when slot `i` exists),
contradicting the claim's universal "discarding the file previously at
index N". -/
theorem C7_counterexample :
    snapState 4 = Option.none
    ∧ rotate_comparison_snapshots snapState 5 5 = some 55
    ∧ rotate_comparison_snapshots snapState 5 5 = snapState 5 := by
  exact ⟨rfl, rfl, rfl⟩

/-- Claim C7 (amended): for every snapshot-file state and
`max_history = N ≥ 2`, rotation empties the base path, moves the old
base file into slot 1, shifts slot `j-1` into slot `j` for
`2 ≤ j ≤ N-1` (a missing file at a shift step is skipped without
error — the function is total), leaves slot `N` holding the old slot
`N-1` when that existed and otherwise its previous content (the old
slot-`N` file is discarded only when slot `N-1` exists), and touches no
slot beyond `N`; hence at most `N` numbered snapshots remain and the
base path is free for the fresh write. -/
theorem C7_rotation_amended {α : Type} (s : FileState α) (N : Nat)
    (hN : 2 ≤ N) :
    rotate_comparison_snapshots s N 0 = Option.none
    ∧ rotate_comparison_snapshots s N 1 = s 0
    ∧ (∀ j, 2 ≤ j → j + 1 ≤ N → rotate_comparison_snapshots s N j = s (j - 1))
    ∧ rotate_comparison_snapshots s N N
        = (if (s (N - 1)).isSome then s (N - 1) else s N)
    ∧ (∀ j, N < j → rotate_comparison_snapshots s N j = s j) := by
  obtain ⟨t0, t1, tmid, ttop, thigh⟩ := shiftAll_char (N - 1) s (by omega)
  have hN1 : N - 1 + 1 = N := by omega
  rw [hN1] at ttop
  unfold rotate_comparison_snapshots
  refine ⟨moveBase_at_zero _, ?_, ?_, ?_, ?_⟩
  · rw [moveBase_at_one _ t1, t0]
  · intro j hj2 hjN
    rw [moveBase_at_ge_two _ j hj2]
    exact tmid j hj2 (by omega)
  · rw [moveBase_at_ge_two _ N (by omega)]
    exact ttop
  · intro j hj
    rw [moveBase_at_ge_two _ j (by omega)]
    exact thigh j (by omega)

/-- Claim C7 witness for the amended statement: on the concrete state
the base is emptied, the old base lands in slot 1, and slot 3 receives
the old slot 2. -/
theorem C7_rotation_amended_witness :
    rotate_comparison_snapshots snapState 5 0 = Option.none
    ∧ rotate_comparison_snapshots snapState 5 1 = snapState 0
    ∧ rotate_comparison_snapshots snapState 5 3 = snapState 2 :=
  ⟨(C7_rotation_amended snapState 5 (by omega)).1,
   (C7_rotation_amended snapState 5 (by omega)).2.1,
   (C7_rotation_amended snapState 5 (by omega)).2.2.1 3 (by omega) (by omega)⟩

/-! ### Loading persisted state, and the news scorer -/

/-- Claim C8 counterexample: the loaders only guard against a *missing*
file (`os.path.exists`); for a file that is present but unparseable,
`json.load` raises and the exception propagates out of `load_json` and
`load_tweeted_alerts` uncaught, aborting the run instead of yielding the
empty/default state. -/
theorem C8_counterexample :
    load_json (some (Except.error "corrupt")) = Except.error "corrupt"
    ∧ load_tweeted_alerts (some (Except.error "corrupt"))
        = Except.error "corrupt"
    ∧ load_json (some (Except.error "corrupt"))
        ≠ Except.ok { alerts := [] } := by
  refine ⟨rfl, rfl, ?_⟩
  intro h
  exact Except.noConfusion h

/-- Claim C8 (amended): a missing ledger or snapshot file is handled —
the loaders return the empty ledger and the default empty-alerts
snapshot and the run continues — and a parseable file is returned as
parsed; but a corrupt (unparseable) file makes the parse error
propagate, aborting the run. -/
theorem C8_load_amended :
    load_json Option.none = Except.ok { alerts := [] }
    ∧ (∀ v : SnapshotFile, load_json (some (Except.ok v)) = Except.ok v)
    ∧ (∀ e : String, load_json (some (Except.error e)) = Except.error e)
    ∧ load_tweeted_alerts Option.none = Except.ok []
    ∧ (∀ v : List (Key × LedgerEntry),
        load_tweeted_alerts (some (Except.ok v)) = Except.ok v)
    ∧ (∀ e : String,
        load_tweeted_alerts (some (Except.error e)) = Except.error e) :=
  ⟨rfl, fun _ => rfl, fun _ => rfl, rfl, fun _ => rfl, fun _ => rfl⟩

/-- Claim C10: for every reply the scoring collaborator may produce,
`get_news_relevance_score` returns an integer in `[0, 10]`; a raising
request, an unparseable reply, or a parsed integer outside `0–10` all
yield `0` instead of propagating an error. -/
theorem score_of_parsed_range (o : Option Int) :
    0 ≤ score_of_parsed o ∧ score_of_parsed o ≤ 10 := by
  cases o with
  | none => exact ⟨le_refl 0, show (0 : Int) ≤ 10 by norm_num⟩
  | some n =>
    unfold score_of_parsed
    dsimp only
    by_cases hr : 0 ≤ n ∧ n ≤ 10
    · rw [if_pos hr]
      exact hr
    · rw [if_neg hr]
      exact ⟨le_refl 0, show (0 : Int) ≤ 10 by norm_num⟩

theorem C10_relevance_range :
    (∀ reply : Except String String,
      0 ≤ get_news_relevance_score reply
        ∧ get_news_relevance_score reply ≤ 10)
    ∧ (∀ e : String, get_news_relevance_score (Except.error e) = 0)
    ∧ (∀ content : String, get_news_relevance_score (Except.ok content)
        = score_of_parsed content.trim.toInt?)
    ∧ score_of_parsed Option.none = 0
    ∧ (∀ n : Int, ¬(0 ≤ n ∧ n ≤ 10) → score_of_parsed (some n) = 0) := by
  refine ⟨?_, fun e => rfl, fun content => rfl, rfl, ?_⟩
  · intro reply
    cases reply with
    | error e => exact ⟨le_refl 0, show (0 : Int) ≤ 10 by norm_num⟩
    | ok t => exact score_of_parsed_range t.trim.toInt?
  · intro n hr
    unfold score_of_parsed
    dsimp only
    rw [if_neg hr]

/-- Claim C10 witness: a reply parsing to the out-of-range integer 11
scores 0, and the range bound holds on a concrete failing request. -/
theorem C10_relevance_range_witness :
    score_of_parsed (some 11) = 0
    ∧ 0 ≤ get_news_relevance_score (Except.error "timeout")
    ∧ get_news_relevance_score (Except.error "timeout") ≤ 10 :=
  ⟨C10_relevance_range.2.2.2.2 11 (by decide),
   (C10_relevance_range.1 (Except.error "timeout")).1,
   (C10_relevance_range.1 (Except.error "timeout")).2⟩

end FloodLink
